import Mathlib

/-!
Verification of the Google Calendar MCP server (`src/index.ts`).

The development shallowly embeds the adapter layer: the Calendar Gateway
operations (`listEvents`, `createEvent`, `updateEvent`, `deleteEvent`,
`searchEvents`, `listCalendars`, `getEvent`), the credential loader
(`initializeAuth`), and the tool dispatcher (the `CallToolRequestSchema`
handler, here `callTool`).

Modelling conventions:
* JavaScript exceptions become `Except String` values; every Gateway
  operation wraps its body in a try/catch, which the embedding renders as
  explicit `match`es whose error branches produce `formatError` text.
* The remote calendar service is an oracle (`Remote`): each field gives the
  service's response to one kind of remote call.  An operation returns the
  formatted text together with the list of remote calls it issued, in order.
* JavaScript truthiness on strings (`""` falsy), on optional strings
  (`undefined`/`""` falsy) and on numbers (`0`/`NaN` falsy) is modelled by
  the `jsTruthy`/`jsOrStr`/`jsOrOpt`/`jsNumOr` helpers.
* `new Date(s).toISOString()` is modelled by `jsDateToISO`, restricted to
  the ISO-8601 shapes `YYYY-MM-DD` and `YYYY-MM-DDTHH:MM:SS` interpreted in
  a UTC runtime; every other string models an invalid date, whose
  `toISOString()` throws a RangeError with message "Invalid time value".
* `parseInt` is modelled by `jsParseInt`, restricted to decimal inputs
  (optional sign, leading-digit prefix; no hex prefixes).
* Template interpolation of a missing (`undefined`) field prints
  "undefined", as in JavaScript; `Array.prototype.join` renders a missing
  element as the empty string.
-/

/-- JS string truthiness for an optional string: `undefined` and `""` are
falsy. -/
def jsTruthy (o : Option String) : Bool :=
  match o with
  | some s => !(s == "")
  | none => false

/-- `a || d` where `a` is an optional string and `d` a string. -/
def jsOrStr (o : Option String) (d : String) : String :=
  match o with
  | some s => if s == "" then d else s
  | none => d

/-- `a || b` where both sides are optional strings. -/
def jsOrOpt (a b : Option String) : Option String :=
  if jsTruthy a then a else b

/-- `n || d` on numbers: `0` (and `NaN`, modelled as `none`) is falsy. -/
def jsNumOr (o : Option Int) (d : Int) : Int :=
  match o with
  | some n => if n = 0 then d else n
  | none => d

/-- Template interpolation of an optional string: `undefined` prints as
"undefined". -/
def tmpl (o : Option String) : String :=
  match o with
  | some s => s
  | none => "undefined"

/-- Character-list version of trimming ASCII/Unicode whitespace from both
ends (JavaScript `String.prototype.trim`). -/
def trimChars (cs : List Char) : List Char :=
  ((cs.dropWhile Char.isWhitespace).reverse.dropWhile Char.isWhitespace).reverse

/-- JavaScript `s.trim()` (structural, so that concrete instances reduce). -/
def jsTrim (s : String) : String :=
  String.mk (trimChars s.toList)

/-- Helper for `jsSplitComma`: splits on `,`, accumulating the current
segment in reverse. -/
def splitCommaAux : List Char → List Char → List String
  | [], acc => [String.mk acc.reverse]
  | c :: rest, acc =>
    if c = ',' then String.mk acc.reverse :: splitCommaAux rest []
    else splitCommaAux rest (c :: acc)

/-- JavaScript `s.split(",")`. -/
def jsSplitComma (s : String) : List String :=
  splitCommaAux s.toList []

/-- Digits of a decimal numeral to a natural number. -/
def digitsToNat (ds : List Char) : Nat :=
  ds.foldl (fun acc c => acc * 10 + (c.toNat - 48)) 0

/-- Models JavaScript `parseInt` restricted to decimal inputs: leading
whitespace skipped, optional sign, then the longest digit prefix; `none`
models `NaN` (no digits).  Hex prefixes (`0x`) are outside the modelled
fragment. -/
def jsParseInt (s : String) : Option Int :=
  match trimChars s.toList with
  | '-' :: rest =>
    let ds := rest.takeWhile Char.isDigit
    if ds.isEmpty then none else some (-(digitsToNat ds : Int))
  | '+' :: rest =>
    let ds := rest.takeWhile Char.isDigit
    if ds.isEmpty then none else some (digitsToNat ds)
  | cs =>
    let ds := cs.takeWhile Char.isDigit
    if ds.isEmpty then none else some (digitsToNat ds)

/-- Models `new Date(s).toISOString()` on the ISO-8601 fragment
`YYYY-MM-DD` and `YYYY-MM-DDTHH:MM:SS` (UTC runtime assumed); any other
string models an invalid date (`none`). -/
def jsDateToISO (s : String) : Option String :=
  match s.toList with
  | [y1, y2, y3, y4, '-', m1, m2, '-', d1, d2] =>
    if [y1, y2, y3, y4, m1, m2, d1, d2].all Char.isDigit then
      some (s ++ "T00:00:00.000Z")
    else none
  | [y1, y2, y3, y4, '-', m1, m2, '-', d1, d2, 'T', h1, h2, ':', n1, n2, ':', s1, s2] =>
    if [y1, y2, y3, y4, m1, m2, d1, d2, h1, h2, n1, n2, s1, s2].all Char.isDigit then
      some (s ++ ".000Z")
    else none
  | _ => none

/-- `new Date(s).toISOString()` as a fallible computation: an invalid date
throws a RangeError whose message is "Invalid time value". -/
def jsToIso (s : String) : Except String String :=
  match jsDateToISO s with
  | some t => Except.ok t
  | none => Except.error "Invalid time value"

/-- `formatError` from `src/index.ts`: every error thrown in the embedded
fragment is an `Error` instance, so only the `error.message` branch is
modelled. -/
def formatError (msg : String) : String :=
  "❌ Error: " ++ msg

/-- `validateRequired` from `src/index.ts`: throws when the value is falsy
(`""`) or blank after trimming; otherwise returns the trimmed value (which
every caller in the source discards). -/
def validateRequired (value name : String) : Except String String :=
  if value = "" ∨ jsTrim value = "" then Except.error (name ++ " is required")
  else Except.ok (jsTrim value)

/-- Google Calendar `EventDateTime`: a timed instant or an all-day date. -/
structure EventDateTime where
  dateTime : Option String
  date : Option String
  timeZone : Option String
deriving DecidableEq

/-- An attendee record (`{email, responseStatus}`). -/
structure Attendee where
  email : Option String
  responseStatus : Option String
deriving DecidableEq

/-- A conference entry point (`{entryPointType, uri}`). -/
structure EntryPoint where
  entryPointType : Option String
  uri : Option String
deriving DecidableEq

/-- `conferenceData` with its optional `entryPoints` array. -/
structure ConferenceData where
  entryPoints : Option (List EntryPoint)
deriving DecidableEq

/-- A remote calendar event, as returned by the calendar service. -/
structure CalendarEvent where
  id : Option String
  summary : Option String
  start : Option EventDateTime
  «end» : Option EventDateTime
  description : Option String
  location : Option String
  attendees : Option (List Attendee)
  status : Option String
  htmlLink : Option String
  conferenceData : Option ConferenceData
deriving DecidableEq

/-- A calendar from the calendar list. -/
structure Calendar where
  id : Option String
  summary : Option String
  description : Option String
  primary : Option Bool
  accessRole : Option String
deriving DecidableEq

/-- The request body sent on insert/update (`eventData` in the source).
A field that the source leaves off the object is `none`; a field set to a
value (including the empty string) is `some`. -/
structure EventBody where
  summary : Option String
  start : Option EventDateTime
  «end» : Option EventDateTime
  description : Option String
  location : Option String
  attendees : Option (List Attendee)
deriving DecidableEq

/-- Parameters of a `calendar.events.list` call. -/
structure ListParams where
  calendarId : String
  maxResults : Int
  singleEvents : Bool
  orderBy : String
  timeMin : Option String
  timeMax : Option String
  q : Option String
deriving DecidableEq

/-- One remote calendar-service call, with the data it carries. -/
inductive RemoteCall where
  | list (p : ListParams)
  | insert (calendarId : String) (body : EventBody)
  | get (calendarId eventId : String)
  | update (calendarId eventId : String) (body : EventBody)
  | delete (calendarId eventId : String)
  | calendarList
deriving DecidableEq

/-- The remote calendar service as an oracle: each field gives the
service's response to one kind of call (`Except.error` models the call
throwing, e.g. not-found or network failure). -/
structure Remote where
  listEv : ListParams → Except String (List CalendarEvent)
  insertEv : String → EventBody → Except String CalendarEvent
  getEv : String → String → Except String CalendarEvent
  updateEv : String → String → EventBody → Except String CalendarEvent
  deleteEv : String → String → Except String Unit
  calendarListEv : Except String (List Calendar)

/-- The world a Gateway operation runs in: whether `getCalendar`'s
authentication initialisation succeeds, the value of
`new Date().toISOString()` at call time, and the remote service. -/
structure World where
  authOk : Bool
  nowIso : String
  remote : Remote

/-- The message of the error thrown by `initializeAuth` on any failure. -/
def authFailMsg : String :=
  "Failed to initialize Google Calendar authentication. Make sure credentials and token files are properly set up."

/-- `getCalendar` from `src/index.ts`: succeeds iff authentication
initialisation succeeds (abstracted by `World.authOk`). -/
def getCal (w : World) : Except String Unit :=
  if w.authOk then Except.ok () else Except.error authFailMsg

/-- `event.start?.dateTime || event.start?.date` (and likewise for the
end): the displayed start/end of an event. -/
def edtDisplay (o : Option EventDateTime) : Option String :=
  jsOrOpt (o.bind EventDateTime.dateTime) (o.bind EventDateTime.date)

/-- One event block of the `listEvents` success report. -/
def listEventBlock (e : CalendarEvent) : String :=
  "📍 " ++ jsOrStr e.summary "Untitled Event" ++ "\n"
    ++ "   ID: " ++ tmpl e.id ++ "\n"
    ++ "   Start: " ++ tmpl (edtDisplay e.start) ++ "\n"
    ++ "   End: " ++ tmpl (edtDisplay e.«end») ++ "\n"
    ++ (if jsTruthy e.description then "   Description: " ++ tmpl e.description ++ "\n" else "")
    ++ (if jsTruthy e.location then "   Location: " ++ tmpl e.location ++ "\n" else "")
    ++ (match e.attendees with
        | some as =>
          if as.length > 0 then
            "   Attendees: " ++ String.intercalate ", " (as.map (fun a => a.email.getD "")) ++ "\n"
          else ""
        | none => "")
    ++ "\n"

/-- The success report of `listEvents`. -/
def formatListEvents (events : List CalendarEvent) : String :=
  if events.length = 0 then "📅 No upcoming events found."
  else
    "📅 Found " ++ toString events.length ++ " event(s):\n\n"
      ++ String.join (events.map listEventBlock)

/-- `listEvents` from `src/index.ts`.  Returns the formatted text and the
remote calls issued.  The source sets `params.timeMin` from `timeMin` when
that is truthy and from `new Date()` otherwise; the branch order is
inverted here so the guard reads `timeMin = ""`. -/
def listEvents (w : World) (maxResults calendarId timeMin timeMax : String) :
    String × List RemoteCall :=
  match getCal w with
  | Except.error e => (formatError e, [])
  | Except.ok _ =>
    let maxResultsNum : Int := jsNumOr (jsParseInt maxResults) 10
    let timeMinRes : Except String String :=
      if timeMin = "" then Except.ok w.nowIso else jsToIso timeMin
    match timeMinRes with
    | Except.error e => (formatError e, [])
    | Except.ok tmin =>
      let timeMaxRes : Except String (Option String) :=
        if timeMax = "" then Except.ok none else (jsToIso timeMax).map some
      match timeMaxRes with
      | Except.error e => (formatError e, [])
      | Except.ok tmax =>
        let p : ListParams :=
          { calendarId := calendarId, maxResults := maxResultsNum,
            singleEvents := true, orderBy := "startTime",
            timeMin := some tmin, timeMax := tmax, q := none }
        match w.remote.listEv p with
        | Except.error e => (formatError e, [RemoteCall.list p])
        | Except.ok events => (formatListEvents events, [RemoteCall.list p])

/-- The success report of `createEvent`, built from the insert response. -/
def formatCreateSuccess (r : CalendarEvent) : String :=
  "✅ Event created successfully!\n\n"
    ++ "📍 " ++ tmpl r.summary ++ "\n"
    ++ "   ID: " ++ tmpl r.id ++ "\n"
    ++ "   Start: " ++ tmpl (edtDisplay r.start) ++ "\n"
    ++ "   End: " ++ tmpl (edtDisplay r.«end») ++ "\n"
    ++ "   Link: " ++ tmpl r.htmlLink

/-- `createEvent` from `src/index.ts`: validates `summary`, `start`, `end`,
initialises the calendar client, converts the two timestamps (either
conversion may throw on an invalid date), assembles `eventData` adding the
truthy optional fields, and issues one insert call. -/
def createEvent (w : World)
    (summary start end_ description location attendees calendarId : String) :
    String × List RemoteCall :=
  match validateRequired summary "summary" with
  | Except.error e => (formatError e, [])
  | Except.ok _ =>
  match validateRequired start "start" with
  | Except.error e => (formatError e, [])
  | Except.ok _ =>
  match validateRequired end_ "end" with
  | Except.error e => (formatError e, [])
  | Except.ok _ =>
  match getCal w with
  | Except.error e => (formatError e, [])
  | Except.ok _ =>
  match jsToIso start with
  | Except.error e => (formatError e, [])
  | Except.ok stIso =>
  match jsToIso end_ with
  | Except.error e => (formatError e, [])
  | Except.ok enIso =>
    let base : EventBody :=
      { summary := some summary,
        start := some { dateTime := some stIso, date := none, timeZone := some "UTC" },
        «end» := some { dateTime := some enIso, date := none, timeZone := some "UTC" },
        description := none, location := none, attendees := none }
    let b1 := if description = "" then base else { base with description := some description }
    let b2 := if location = "" then b1 else { b1 with location := some location }
    let atts : List Attendee :=
      (jsSplitComma attendees).map fun e => { email := some (jsTrim e), responseStatus := none }
    let b3 := if attendees = "" then b2 else { b2 with attendees := some atts }
    match w.remote.insertEv calendarId b3 with
    | Except.error e => (formatError e, [RemoteCall.insert calendarId b3])
    | Except.ok r => (formatCreateSuccess r, [RemoteCall.insert calendarId b3])

/-- The success report of `updateEvent`, built from the update response. -/
def formatUpdateSuccess (r : CalendarEvent) : String :=
  "✅ Event updated successfully!\n\n"
    ++ "📍 " ++ tmpl r.summary ++ "\n"
    ++ "   ID: " ++ tmpl r.id ++ "\n"
    ++ "   Start: " ++ tmpl (edtDisplay r.start) ++ "\n"
    ++ "   End: " ++ tmpl (edtDisplay r.«end»)

/-- `updateEvent` from `src/index.ts`: validates `eventId`, fetches the
existing event, then builds the update body.  `summary`, `start` and `end`
fall back to the fetched values when the argument is falsy; the source's
guards `description !== undefined` and `location !== undefined` are always
true (both parameters default to `""` and the dispatcher passes `""` for a
missing argument), so `description` and `location` are always placed on the
body as given. -/
def updateEvent (w : World)
    (eventId summary start end_ description location calendarId : String) :
    String × List RemoteCall :=
  match validateRequired eventId "eventId" with
  | Except.error e => (formatError e, [])
  | Except.ok _ =>
  match getCal w with
  | Except.error e => (formatError e, [])
  | Except.ok _ =>
  match w.remote.getEv calendarId eventId with
  | Except.error e => (formatError e, [RemoteCall.get calendarId eventId])
  | Except.ok existing =>
    let startRes : Except String (Option EventDateTime) :=
      if start = "" then Except.ok existing.start
      else (jsToIso start).map fun i =>
        some { dateTime := some i, date := none, timeZone := some "UTC" }
    match startRes with
    | Except.error e => (formatError e, [RemoteCall.get calendarId eventId])
    | Except.ok st =>
    let endRes : Except String (Option EventDateTime) :=
      if end_ = "" then Except.ok existing.«end»
      else (jsToIso end_).map fun i =>
        some { dateTime := some i, date := none, timeZone := some "UTC" }
    match endRes with
    | Except.error e => (formatError e, [RemoteCall.get calendarId eventId])
    | Except.ok en =>
      let body : EventBody :=
        { summary := if summary = "" then existing.summary else some summary,
          start := st, «end» := en,
          description := some description, location := some location,
          attendees := none }
      match w.remote.updateEv calendarId eventId body with
      | Except.error e =>
        (formatError e, [RemoteCall.get calendarId eventId,
                         RemoteCall.update calendarId eventId body])
      | Except.ok r =>
        (formatUpdateSuccess r, [RemoteCall.get calendarId eventId,
                                 RemoteCall.update calendarId eventId body])

/-- `deleteEvent` from `src/index.ts`. -/
def deleteEvent (w : World) (eventId calendarId : String) :
    String × List RemoteCall :=
  match validateRequired eventId "eventId" with
  | Except.error e => (formatError e, [])
  | Except.ok _ =>
  match getCal w with
  | Except.error e => (formatError e, [])
  | Except.ok _ =>
  match w.remote.deleteEv calendarId eventId with
  | Except.error e => (formatError e, [RemoteCall.delete calendarId eventId])
  | Except.ok _ =>
    ("✅ Event deleted successfully!\n   Event ID: " ++ eventId,
     [RemoteCall.delete calendarId eventId])

/-- One event block of the `searchEvents` success report. -/
def searchEventBlock (e : CalendarEvent) : String :=
  "📍 " ++ jsOrStr e.summary "Untitled Event" ++ "\n"
    ++ "   ID: " ++ tmpl e.id ++ "\n"
    ++ "   Start: " ++ tmpl (edtDisplay e.start) ++ "\n"
    ++ (if jsTruthy e.description then "   Description: " ++ tmpl e.description ++ "\n" else "")
    ++ "\n"

/-- The success report of `searchEvents`. -/
def formatSearchEvents (query : String) (events : List CalendarEvent) : String :=
  if events.length = 0 then "🔍 No events found matching: \"" ++ query ++ "\""
  else
    "🔍 Found " ++ toString events.length ++ " event(s) matching \"" ++ query ++ "\":\n\n"
      ++ String.join (events.map searchEventBlock)

/-- `searchEvents` from `src/index.ts`: validates `query` (using the raw,
untrimmed query afterwards) and issues one list call with a free-text
filter.  The lenient `maxResults` parse is the same as in `listEvents`. -/
def searchEvents (w : World) (query maxResults calendarId : String) :
    String × List RemoteCall :=
  match validateRequired query "query" with
  | Except.error e => (formatError e, [])
  | Except.ok _ =>
  match getCal w with
  | Except.error e => (formatError e, [])
  | Except.ok _ =>
    let maxResultsNum : Int := jsNumOr (jsParseInt maxResults) 10
    let p : ListParams :=
      { calendarId := calendarId, maxResults := maxResultsNum,
        singleEvents := true, orderBy := "startTime",
        timeMin := none, timeMax := none, q := some query }
    match w.remote.listEv p with
    | Except.error e => (formatError e, [RemoteCall.list p])
    | Except.ok events => (formatSearchEvents query events, [RemoteCall.list p])

/-- One calendar block of the `listCalendars` success report. -/
def calendarBlock (c : Calendar) : String :=
  "📍 " ++ jsOrStr c.summary "Untitled Calendar" ++ "\n"
    ++ "   ID: " ++ tmpl c.id ++ "\n"
    ++ (if jsTruthy c.description then "   Description: " ++ tmpl c.description ++ "\n" else "")
    ++ "   Primary: " ++ (if c.primary.getD false then "Yes" else "No") ++ "\n"
    ++ "   Access: " ++ tmpl c.accessRole ++ "\n"
    ++ "\n"

/-- `listCalendars` from `src/index.ts`. -/
def listCalendars (w : World) : String × List RemoteCall :=
  match getCal w with
  | Except.error e => (formatError e, [])
  | Except.ok _ =>
  match w.remote.calendarListEv with
  | Except.error e => (formatError e, [RemoteCall.calendarList])
  | Except.ok cals =>
    if cals.length = 0 then ("📅 No calendars found.", [RemoteCall.calendarList])
    else
      ("📅 Found " ++ toString cals.length ++ " calendar(s):\n\n"
        ++ String.join (cals.map calendarBlock), [RemoteCall.calendarList])

/-- One attendee line of the `getEvent` report. -/
def getEventAttendeeLine (a : Attendee) : String :=
  "  - " ++ tmpl a.email ++ " (" ++ jsOrStr a.responseStatus "no response" ++ ")\n"

/-- One conference entry line of the `getEvent` report. -/
def getEventEntryLine (e : EntryPoint) : String :=
  "  - " ++ tmpl e.entryPointType ++ ": " ++ tmpl e.uri ++ "\n"

/-- The success report of `getEvent`, a pure function of the fetched
event. -/
def formatGetEvent (e : CalendarEvent) : String :=
  "📍 " ++ jsOrStr e.summary "Untitled Event" ++ "\n\n"
    ++ "ID: " ++ tmpl e.id ++ "\n"
    ++ "Start: " ++ tmpl (edtDisplay e.start) ++ "\n"
    ++ "End: " ++ tmpl (edtDisplay e.«end») ++ "\n"
    ++ "Status: " ++ tmpl e.status ++ "\n"
    ++ (if jsTruthy e.description then "Description: " ++ tmpl e.description ++ "\n" else "")
    ++ (if jsTruthy e.location then "Location: " ++ tmpl e.location ++ "\n" else "")
    ++ (match e.attendees with
        | some as =>
          if as.length > 0 then "\nAttendees:\n" ++ String.join (as.map getEventAttendeeLine)
          else ""
        | none => "")
    ++ (match e.conferenceData with
        | some cd =>
          match cd.entryPoints with
          | some eps => "\nConference:\n" ++ String.join (eps.map getEventEntryLine)
          | none => ""
        | none => "")
    ++ "\nLink: " ++ tmpl e.htmlLink

/-- `getEvent` from `src/index.ts`: validates `eventId`, issues one get
call and formats the fetched event. -/
def getEvent (w : World) (eventId calendarId : String) :
    String × List RemoteCall :=
  match validateRequired eventId "eventId" with
  | Except.error e => (formatError e, [])
  | Except.ok _ =>
  match getCal w with
  | Except.error e => (formatError e, [])
  | Except.ok _ =>
  match w.remote.getEv calendarId eventId with
  | Except.error e => (formatError e, [RemoteCall.get calendarId eventId])
  | Except.ok ev => (formatGetEvent ev, [RemoteCall.get calendarId eventId])

/-- The parsed credentials document: the `installed`/`web` sub-object
(`credentials.installed || credentials.web` collapsed into one parsed
record). -/
structure Credentials where
  client_id : String
  client_secret : String
  redirect_uris : List String
deriving DecidableEq

/-- The parsed token document. -/
structure Token where
  access_token : String
  refresh_token : String
  expiry_date : Int
deriving DecidableEq

/-- The OAuth2 client constructed by `initializeAuth` (the AuthContext):
client id, client secret, first redirect URI, and the credentials set by
`setCredentials`. -/
structure OAuth2Client where
  client_id : String
  client_secret : String
  redirect_uri : Option String
  credentials : Token
deriving DecidableEq

/-- The two credential files as seen by `initializeAuth`.  `none` collapses
every read/parse failure mode (file missing, unreadable, invalid JSON, or
the expected sub-fields absent), all of which the source's catch turns into
the same error. -/
structure AuthFS where
  credFile : Option Credentials
  tokenFile : Option Token

/-- `initializeAuth` from `src/index.ts`, with the module-level `auth`
cache passed explicitly.  Returns the result, the new cache state, and the
number of file reads performed: the cached call reads nothing; a fresh call
reads the credentials file and, if that succeeds, the token file, then
constructs and caches the client. -/
def initializeAuth (fs : AuthFS) (cached : Option OAuth2Client) :
    Except String OAuth2Client × Option OAuth2Client × Nat :=
  match cached with
  | some c => (Except.ok c, some c, 0)
  | none =>
    match fs.credFile with
    | none => (Except.error authFailMsg, none, 1)
    | some cred =>
      match fs.tokenFile with
      | none => (Except.error authFailMsg, none, 2)
      | some tok =>
        let c : OAuth2Client :=
          { client_id := cred.client_id, client_secret := cred.client_secret,
            redirect_uri := cred.redirect_uris.head?, credentials := tok }
        (Except.ok c, some c, 2)

/-- One content block of a ToolResult (always a text block here). -/
inductive Content where
  | text (t : String)
deriving DecidableEq

/-- The value returned by the `CallToolRequestSchema` handler.  The source
omits `isError` on success, which a protocol consumer reads as false; the
embedding sets it explicitly. -/
structure ToolResult where
  content : List Content
  isError : Bool
deriving DecidableEq

/-- The untyped argument mapping of a tool call; values are strings (the
source casts each entry with `as string`). -/
abbrev Args := List (String × String)

/-- `args?.k` — first binding of `k`, if any. -/
def getArg (args : Args) (k : String) : Option String :=
  (args.find? (fun kv => kv.1 == k)).map (fun kv => kv.2)

/-- `(args?.k as string) || d`: a missing or empty argument falls back to
the default. -/
def argStr (args : Args) (k d : String) : String :=
  jsOrStr (getArg args k) d

/-- The seven recognized tool names, in the order of the handler's switch. -/
def toolNames : List String :=
  ["list_events", "create_event", "update_event", "delete_event",
   "search_events", "list_calendars", "get_event"]

/-- The `CallToolRequestSchema` handler from `src/index.ts` (`callTool`):
coerces the arguments of the named tool with their defaults, delegates to
the Gateway operation, and wraps its text in a single-content-block
ToolResult with `isError` unset.  The `default` branch throws
`Unknown tool: <name>`, which the surrounding catch turns into a
`formatError` text with `isError := true`.  The Gateway operations catch
all of their own errors, so the catch is reachable only from the `default`
branch.  Also returns the remote calls issued. -/
def callTool (w : World) (name : String) (args : Args) :
    ToolResult × List RemoteCall :=
  if name = "list_events" then
    let r := listEvents w (argStr args "maxResults" "10") (argStr args "calendarId" "primary")
      (argStr args "timeMin" "") (argStr args "timeMax" "")
    ({ content := [Content.text r.1], isError := false }, r.2)
  else if name = "create_event" then
    let r := createEvent w (argStr args "summary" "") (argStr args "start" "")
      (argStr args "end" "") (argStr args "description" "") (argStr args "location" "")
      (argStr args "attendees" "") (argStr args "calendarId" "primary")
    ({ content := [Content.text r.1], isError := false }, r.2)
  else if name = "update_event" then
    let r := updateEvent w (argStr args "eventId" "") (argStr args "summary" "")
      (argStr args "start" "") (argStr args "end" "") (argStr args "description" "")
      (argStr args "location" "") (argStr args "calendarId" "primary")
    ({ content := [Content.text r.1], isError := false }, r.2)
  else if name = "delete_event" then
    let r := deleteEvent w (argStr args "eventId" "") (argStr args "calendarId" "primary")
    ({ content := [Content.text r.1], isError := false }, r.2)
  else if name = "search_events" then
    let r := searchEvents w (argStr args "query" "") (argStr args "maxResults" "10")
      (argStr args "calendarId" "primary")
    ({ content := [Content.text r.1], isError := false }, r.2)
  else if name = "list_calendars" then
    let r := listCalendars w
    ({ content := [Content.text r.1], isError := false }, r.2)
  else if name = "get_event" then
    let r := getEvent w (argStr args "eventId" "") (argStr args "calendarId" "primary")
    ({ content := [Content.text r.1], isError := false }, r.2)
  else
    ({ content := [Content.text (formatError ("Unknown tool: " ++ name))], isError := true }, [])

/-- A concrete stored start time, used by the concrete scenarios below. -/
def sampleStart : EventDateTime :=
  { dateTime := some "2025-11-27T14:00:00.000Z", date := none, timeZone := some "UTC" }

/-- A concrete stored end time. -/
def sampleEnd : EventDateTime :=
  { dateTime := some "2025-11-27T15:00:00.000Z", date := none, timeZone := some "UTC" }

/-- A concrete remote event with a non-empty description and location. -/
def sampleEvent : CalendarEvent :=
  { id := some "e1", summary := some "Team Sync",
    start := some sampleStart, «end» := some sampleEnd,
    description := some "Weekly sync", location := some "Room 1",
    attendees := none, status := some "confirmed",
    htmlLink := some "https://calendar.example/e1", conferenceData := none }

/-- A concrete remote service that answers every call successfully. -/
def sampleRemote : Remote :=
  { listEv := fun _ => Except.ok [sampleEvent],
    insertEv := fun _ _ => Except.ok sampleEvent,
    getEv := fun _ _ => Except.ok sampleEvent,
    updateEv := fun _ _ _ => Except.ok sampleEvent,
    deleteEv := fun _ _ => Except.ok (),
    calendarListEv := Except.ok [] }

/-- A concrete world with working authentication. -/
def w1 : World :=
  { authOk := true, nowIso := "2025-11-27T10:00:00.000Z", remote := sampleRemote }

/-- The update body that `updateEvent` sends when only `eventId` is
supplied and the fetched event is `sampleEvent`. -/
def updBody1 : EventBody :=
  { summary := some "Team Sync", start := some sampleStart, «end» := some sampleEnd,
    description := some "", location := some "", attendees := none }

theorem jsTrim_empty : jsTrim "" = "" := by decide

theorem validateRequired_blank (x n : String) (hx : jsTrim x = "") :
    validateRequired x n = Except.error (n ++ " is required") := by
  unfold validateRequired
  rw [if_pos (Or.inr hx)]

theorem validateRequired_ok (x n : String) (hx : jsTrim x ≠ "") :
    validateRequired x n = Except.ok (jsTrim x) := by
  unfold validateRequired
  rw [if_neg]
  rintro (h1 | h2)
  · exact hx (h1 ▸ jsTrim_empty)
  · exact hx h2

/-- **C1** (code bug evaluated at the failing input): an `update_event`
call through the dispatcher that supplies only `eventId` issues exactly one
get and one update; the update body carries the stored summary, start and
end, but its `description` and `location` are the empty string rather than
the values stored on the remote event (`"Weekly sync"` / `"Room 1"`): the
source's `!== undefined` presence checks are always true, so the unsupplied
optional fields are cleared instead of retained. -/
theorem c1_update_event_clears_unsupplied_description_location :
    (callTool w1 "update_event" [("eventId", "e1")]).2 =
      [RemoteCall.get "primary" "e1", RemoteCall.update "primary" "e1" updBody1] ∧
    updBody1.description = some "" ∧
    sampleEvent.description = some "Weekly sync" ∧
    updBody1.location = some "" ∧
    sampleEvent.location = some "Room 1" ∧
    updBody1.summary = sampleEvent.summary ∧
    updBody1.start = sampleEvent.start ∧
    updBody1.«end» = sampleEvent.«end» := by
  decide

/-- **C2** (counterexample): `create_event` with no arguments makes the
Gateway report a validation failure ("❌ Error: summary is required"), yet
the ToolResult's error flag is not set — the handler only sets `isError`
in its catch, which Gateway failures never reach because every operation
catches its own errors and returns the failure text normally. -/
theorem c2_gateway_failure_without_error_flag :
    (callTool w1 "create_event" []).1 =
      { content := [Content.text (formatError "summary is required")], isError := false } := by
  decide

/-- **C2** (amended): for every recognized tool name the ToolResult's
error flag is never set, even when the Gateway's returned text is a
failure report; the flag is set only when the dispatched call raises,
which happens only in the unknown-tool branch. -/
theorem c2_error_flag_false_for_recognized_tools
    (w : World) (name : String) (args : Args) (h : name ∈ toolNames) :
    (callTool w name args).1.isError = false := by
  simp only [toolNames, List.mem_cons, List.mem_singleton, List.not_mem_nil, or_false] at h
  rcases h with rfl | rfl | rfl | rfl | rfl | rfl | rfl <;> simp [callTool]

/-- **C2** (witness). -/
theorem c2_error_flag_false_for_recognized_tools_witness :
    "list_events" ∈ toolNames ∧ (callTool w1 "list_events" []).1.isError = false :=
  ⟨by decide, c2_error_flag_false_for_recognized_tools w1 "list_events" [] (by decide)⟩

/-- **C4**: for every recognized tool name and every argument mapping,
`callTool` returns a ToolResult consisting of a single text content
block (it never raises: the embedding is a total function). -/
theorem c4_calltool_single_text_block
    (w : World) (name : String) (args : Args) (h : name ∈ toolNames) :
    ∃ t, (callTool w name args).1.content = [Content.text t] := by
  simp only [toolNames, List.mem_cons, List.mem_singleton, List.not_mem_nil, or_false] at h
  rcases h with rfl | rfl | rfl | rfl | rfl | rfl | rfl <;> exact ⟨_, rfl⟩

/-- **C4** (witness). -/
theorem c4_calltool_single_text_block_witness :
    "delete_event" ∈ toolNames ∧
    ∃ t, (callTool w1 "delete_event" []).1.content = [Content.text t] :=
  ⟨by decide, c4_calltool_single_text_block w1 "delete_event" [] (by decide)⟩

/-- **C5**: for a tool name outside the seven recognized identifiers,
`callTool` returns an error-flagged ToolResult whose text is
"❌ Error: Unknown tool: <name>" (so it contains "Unknown tool: <name>"),
with no remote call; and this is the only case in which the dispatcher
itself produces a failure: for every recognized name the error flag stays
false. -/
theorem c5_unknown_tool_only_dispatcher_failure
    (w : World) (name : String) (args : Args) :
    (name ∉ toolNames →
      (callTool w name args).1 =
        { content := [Content.text ("❌ Error: " ++ ("Unknown tool: " ++ name))],
          isError := true } ∧
      (callTool w name args).2 = []) ∧
    (name ∈ toolNames → (callTool w name args).1.isError = false) := by
  constructor
  · intro h
    simp only [toolNames, List.mem_cons, List.mem_singleton, List.not_mem_nil, or_false,
      not_or] at h
    obtain ⟨h1, h2, h3, h4, h5, h6, h7⟩ := h
    rw [callTool]
    simp only [if_neg h1, if_neg h2, if_neg h3, if_neg h4, if_neg h5, if_neg h6, if_neg h7]
    exact ⟨rfl, trivial⟩
  · intro h
    simp only [toolNames, List.mem_cons, List.mem_singleton, List.not_mem_nil, or_false] at h
    rcases h with rfl | rfl | rfl | rfl | rfl | rfl | rfl <;> simp [callTool]

/-- **C5** (witness). -/
theorem c5_unknown_tool_only_dispatcher_failure_witness :
    ("nonexistent_tool" ∉ toolNames ∧
      (callTool w1 "nonexistent_tool" []).1 =
        { content := [Content.text ("❌ Error: " ++ ("Unknown tool: " ++ "nonexistent_tool"))],
          isError := true } ∧
      (callTool w1 "nonexistent_tool" []).2 = []) ∧
    ("list_calendars" ∈ toolNames ∧ (callTool w1 "list_calendars" []).1.isError = false) :=
  ⟨⟨by decide,
    (c5_unknown_tool_only_dispatcher_failure w1 "nonexistent_tool" []).1 (by decide)⟩,
   ⟨by decide,
    (c5_unknown_tool_only_dispatcher_failure w1 "list_calendars" []).2 (by decide)⟩⟩

/-- **C3**: every Gateway operation with a required textual input rejects a
missing/empty/blank value (the dispatcher turns a missing argument into
`""`, and `""` trims to `""`) with the corresponding validation failure
report and issues zero remote calls, whatever the rest of the arguments
and the state of the world: `eventId` for `updateEvent`/`deleteEvent`/
`getEvent`, `query` for `searchEvents`, and `summary`, `start`, `end` for
`createEvent`. -/
theorem c3_blank_required_input_fails_with_no_remote_call
    (w : World) (x : String) (hx : jsTrim x = "") :
    (∀ a b c d e cid, updateEvent w x a b c d e cid = (formatError "eventId is required", [])) ∧
    (∀ cid, deleteEvent w x cid = (formatError "eventId is required", [])) ∧
    (∀ cid, getEvent w x cid = (formatError "eventId is required", [])) ∧
    (∀ a cid, searchEvents w x a cid = (formatError "query is required", [])) ∧
    (∀ b c d e f cid, createEvent w x b c d e f cid = (formatError "summary is required", [])) ∧
    (∀ s c d e f cid, jsTrim s ≠ "" →
      createEvent w s x c d e f cid = (formatError "start is required", [])) ∧
    (∀ s t d e f cid, jsTrim s ≠ "" → jsTrim t ≠ "" →
      createEvent w s t x d e f cid = (formatError "end is required", [])) := by
  refine ⟨?_, ?_, ?_, ?_, ?_, ?_, ?_⟩
  · intro a b c d e cid
    simp [updateEvent, validateRequired_blank x "eventId" hx]
  · intro cid
    simp [deleteEvent, validateRequired_blank x "eventId" hx]
  · intro cid
    simp [getEvent, validateRequired_blank x "eventId" hx]
  · intro a cid
    simp [searchEvents, validateRequired_blank x "query" hx]
  · intro b c d e f cid
    simp [createEvent, validateRequired_blank x "summary" hx]
  · intro s c d e f cid hs
    simp [createEvent, validateRequired_ok s "summary" hs,
      validateRequired_blank x "start" hx]
  · intro s t d e f cid hs ht
    simp [createEvent, validateRequired_ok s "summary" hs,
      validateRequired_ok t "start" ht, validateRequired_blank x "end" hx]

/-- **C3** (witness). -/
theorem c3_blank_required_input_fails_with_no_remote_call_witness :
    jsTrim "  " = "" ∧
    updateEvent w1 "  " "a" "b" "c" "d" "e" "primary" =
      (formatError "eventId is required", []) ∧
    createEvent w1 "Team Sync" "2025-11-27T14:00:00" "  " "" "" "" "primary" =
      (formatError "end is required", []) := by
  have h := c3_blank_required_input_fails_with_no_remote_call w1 "  " (by decide)
  exact ⟨by decide, h.1 "a" "b" "c" "d" "e" "primary",
    (h.2.2.2.2.2.2) "Team Sync" "2025-11-27T14:00:00" "" "" "" "primary"
      (by decide) (by decide)⟩

/-- **C6**: a `listEvents` invocation with `timeMin` and `timeMax` absent
(the dispatcher passes `""`) issues exactly one remote list call whose
`timeMin` is the current time, whose `timeMax` is not sent, and whose
`maxResults` is 10 whenever the argument is omitted (the dispatcher's
default `"10"`) or does not parse as a number. -/
theorem c6_list_events_defaults
    (w : World) (mr cid : String) (hw : w.authOk = true)
    (hmr : jsParseInt mr = none ∨ mr = "10") :
    (listEvents w mr cid "" "").2 =
      [RemoteCall.list
        { calendarId := cid, maxResults := 10, singleEvents := true,
          orderBy := "startTime", timeMin := some w.nowIso, timeMax := none,
          q := none }] := by
  have hm : jsNumOr (jsParseInt mr) 10 = 10 := by
    rcases hmr with h | h
    · rw [h]; rfl
    · rw [h]; decide
  simp only [listEvents, getCal, hw, if_true, hm, if_pos rfl]
  cases w.remote.listEv _ <;> rfl

/-- **C6** (witness). -/
theorem c6_list_events_defaults_witness :
    w1.authOk = true ∧ (jsParseInt "soon" = none ∨ ("soon" : String) = "10") ∧
    (listEvents w1 "soon" "primary" "" "").2 =
      [RemoteCall.list
        { calendarId := "primary", maxResults := 10, singleEvents := true,
          orderBy := "startTime", timeMin := some w1.nowIso, timeMax := none,
          q := none }] :=
  ⟨rfl, Or.inl (by decide),
    c6_list_events_defaults w1 "soon" "primary" rfl (Or.inl (by decide))⟩

/-- **C9**: a `maxResults` argument parsing to the number 0 (such as the
string "0") is treated like a non-numeric one by `parseInt(maxResults) ||
10` — 0 is falsy — so both `listEvents` and `searchEvents` send the
default limit 10, never 0, to the remote list call. -/
theorem c9_zero_max_results_sends_default_ten
    (w : World) (cid q cid2 : String) (hw : w.authOk = true) (hq : jsTrim q ≠ "") :
    (∃ p, (listEvents w "0" cid "" "").2 = [RemoteCall.list p] ∧ p.maxResults = 10) ∧
    (∃ p, (searchEvents w q "0" cid2).2 = [RemoteCall.list p] ∧ p.maxResults = 10) := by
  have hm : jsNumOr (jsParseInt "0") 10 = 10 := by decide
  constructor
  · refine ⟨{ calendarId := cid, maxResults := 10, singleEvents := true, orderBy := "startTime", timeMin := some w.nowIso, timeMax := none, q := none }, ?_, rfl⟩
    simp only [listEvents, getCal, hw, if_true, hm, if_pos rfl]
    cases w.remote.listEv _ <;> rfl
  · refine ⟨{ calendarId := cid2, maxResults := 10, singleEvents := true, orderBy := "startTime", timeMin := none, timeMax := none, q := some q }, ?_, rfl⟩
    simp only [searchEvents, getCal, hw, if_true, hm,
      validateRequired_ok q "query" hq]
    cases w.remote.listEv _ <;> rfl

/-- **C9** (witness). -/
theorem c9_zero_max_results_sends_default_ten_witness :
    w1.authOk = true ∧ jsTrim "standup" ≠ "" ∧
    ((∃ p, (listEvents w1 "0" "primary" "" "").2 = [RemoteCall.list p] ∧ p.maxResults = 10) ∧
     (∃ p, (searchEvents w1 "standup" "0" "primary").2 = [RemoteCall.list p] ∧
       p.maxResults = 10)) :=
  ⟨rfl, by decide,
    c9_zero_max_results_sends_default_ten w1 "primary" "standup" "primary" rfl (by decide)⟩

/-- **C8**: the formatted output of `getEvent` is a deterministic function
of the remote event data returned (and of whether authentication
initialises): two invocations with the same `eventId` and `calendarId`
against worlds whose get responses for that pair agree — in particular two
successive calls with no intervening mutation — yield identical output and
identical remote-call traces. -/
theorem c8_get_event_deterministic
    (w w2 : World) (eid cid : String)
    (h1 : w.authOk = w2.authOk)
    (h2 : w.remote.getEv cid eid = w2.remote.getEv cid eid) :
    getEvent w eid cid = getEvent w2 eid cid := by
  simp only [getEvent, getCal, h1, h2]

/-- **C8** (witness). -/
theorem c8_get_event_deterministic_witness :
    w1.authOk = w1.authOk ∧
    w1.remote.getEv "primary" "e1" = w1.remote.getEv "primary" "e1" ∧
    getEvent w1 "e1" "primary" = getEvent w1 "e1" "primary" :=
  ⟨rfl, rfl, c8_get_event_deterministic w1 w1 "e1" "primary" rfl rfl⟩

/-- **C10**: `createEvent` with non-blank `summary`, `start`, `end` but a
`start` or `end` that is not a valid date returns the caught
date-conversion failure "❌ Error: Invalid time value" (which begins with
"❌ Error: ") and issues no remote call at all — in particular no insert —
leaving the remote calendar unchanged. -/
theorem c10_create_event_invalid_date_no_insert
    (w : World) (s st en d l a cid : String) (hw : w.authOk = true)
    (hs : jsTrim s ≠ "") (hst : jsTrim st ≠ "") (hen : jsTrim en ≠ "")
    (hbad : jsDateToISO st = none ∨ jsDateToISO en = none) :
    createEvent w s st en d l a cid = (formatError "Invalid time value", []) := by
  simp only [createEvent, validateRequired_ok s "summary" hs,
    validateRequired_ok st "start" hst, validateRequired_ok en "end" hen,
    getCal, hw, if_true]
  cases hst2 : jsDateToISO st with
  | none => simp [jsToIso, hst2]
  | some v =>
    have hen2 : jsDateToISO en = none := by
      rcases hbad with h | h
      · rw [h] at hst2; cases hst2
      · exact h
    simp [jsToIso, hst2, hen2]

/-- **C10** (witness). -/
theorem c10_create_event_invalid_date_no_insert_witness :
    w1.authOk = true ∧ jsTrim "Team Sync" ≠ "" ∧ jsTrim "not-a-date" ≠ "" ∧
    jsTrim "2025-11-27T15:00:00" ≠ "" ∧ jsDateToISO "not-a-date" = none ∧
    createEvent w1 "Team Sync" "not-a-date" "2025-11-27T15:00:00" "" "" "" "primary" =
      (formatError "Invalid time value", []) :=
  ⟨rfl, by decide, by decide, by decide, by decide,
    c10_create_event_invalid_date_no_insert w1 "Team Sync" "not-a-date"
      "2025-11-27T15:00:00" "" "" "" "primary" rfl (by decide) (by decide) (by decide)
      (Or.inl (by decide))⟩

/-- **C7**: `initializeAuth` is idempotent and memoized: a first successful
call performs exactly the two file reads and caches the constructed client,
and every later call returns that same cached handle with zero file reads,
whatever the files contain by then. -/
theorem c7_initialize_auth_memoized
    (fs : AuthFS) (c : OAuth2Client) (st : Option OAuth2Client) (n : Nat)
    (h : initializeAuth fs none = (Except.ok c, st, n)) :
    st = some c ∧ n = 2 ∧
    ∀ fs2, initializeAuth fs2 (some c) = (Except.ok c, some c, 0) := by
  unfold initializeAuth at h
  cases hc : fs.credFile with
  | none => rw [hc] at h; simp at h
  | some cred =>
    cases ht : fs.tokenFile with
    | none => rw [hc, ht] at h; simp at h
    | some tok =>
      rw [hc, ht] at h
      simp only [Prod.mk.injEq, Except.ok.injEq] at h
      obtain ⟨h1, h2, h3⟩ := h
      subst h1
      exact ⟨h2.symm, h3.symm, fun fs2 => rfl⟩

/-- A concrete pair of credential files for the C7 witness. -/
def fs0 : AuthFS :=
  { credFile := some { client_id := "cid", client_secret := "sec", redirect_uris := ["http://localhost:3000"] },
    tokenFile := some { access_token := "at", refresh_token := "rt", expiry_date := 1764201600 } }

/-- The client `initializeAuth` constructs from `fs0`. -/
def client0 : OAuth2Client :=
  { client_id := "cid", client_secret := "sec",
    redirect_uri := some "http://localhost:3000",
    credentials := { access_token := "at", refresh_token := "rt", expiry_date := 1764201600 } }

/-- **C7** (witness). -/
theorem c7_initialize_auth_memoized_witness :
    initializeAuth fs0 none = (Except.ok client0, some client0, 2) ∧
    (some client0 = some client0 ∧ (2 : Nat) = 2 ∧
      ∀ fs2, initializeAuth fs2 (some client0) = (Except.ok client0, some client0, 0)) :=
  ⟨rfl, c7_initialize_auth_memoized fs0 client0 (some client0) 2 rfl⟩
